import Mathlib

/-!
Verification development for the `lds-scriptures-download` repository
(`src/download.py`, `src/languages.py`).

The Python program is shallowly embedded: pure transformations become Lean
functions, the HTML parse tree produced by BeautifulSoup is modelled as an
explicit node tree, network responses are an explicit sequence of
status/body pairs, and Python exceptions become explicit error values
(`Except` / sum-like result types).
-/

namespace LdsDownload

/-! ## HTML node model

`BeautifulSoup` parse trees are modelled as a tree of element and text
nodes.  An element carries its tag name, an optional `id` attribute, its
class list and its children.  This is the representation on which
`get_content` (src/download.py lines 188-230) operates via CSS selection
(`select` / `select_one`), `find_all(tag, class_=...)`, `.text`,
`.clear()` and `str.strip()`. -/

inductive Node where
  | elem (tag : String) (idAttr : Option String) (classes : List String)
      (children : List Node)
  | txt (s : String)
deriving Repr

mutual

def nodeDecEq : (a b : Node) → Decidable (a = b)
  | .txt s, .txt t => decidable_of_iff (s = t) (by simp)
  | .txt _, .elem _ _ _ _ => isFalse (fun h => Node.noConfusion h)
  | .elem _ _ _ _, .txt _ => isFalse (fun h => Node.noConfusion h)
  | .elem t1 i1 c1 cs1, .elem t2 i2 c2 cs2 =>
      have : Decidable (cs1 = cs2) := nodeListDecEq cs1 cs2
      decidable_of_iff (t1 = t2 ∧ i1 = i2 ∧ c1 = c2 ∧ cs1 = cs2) (by simp)
termination_by structural x => x

def nodeListDecEq : (a b : List Node) → Decidable (a = b)
  | [], [] => isTrue rfl
  | [], _ :: _ => isFalse (fun h => List.noConfusion h)
  | _ :: _, [] => isFalse (fun h => List.noConfusion h)
  | a :: as, b :: bs =>
      have : Decidable (a = b) := nodeDecEq a b
      have : Decidable (as = bs) := nodeListDecEq as bs
      decidable_of_iff (a = b ∧ as = bs) (by simp)
termination_by structural x => x

end

instance : DecidableEq Node := nodeDecEq

/-- The children of a node (a text node has none); bs4 `Tag.contents`. -/
def Node.children : Node → List Node
  | .elem _ _ _ cs => cs
  | .txt _ => []

mutual

/-- bs4 `Tag.text` / `get_text()`: concatenation of every descendant
string, in document order. -/
def Node.textContent : Node → String
  | .txt s => s
  | .elem _ _ _ cs => textContentList cs
termination_by structural x => x

def textContentList : List Node → String
  | [] => ""
  | c :: cs => c.textContent ++ textContentList cs
termination_by structural x => x

end

mutual

/-- All descendants of a node in document order (the node itself is not
included), matching the order in which bs4 `select` / `find_all` return
matches. -/
def Node.descendants : Node → List Node
  | .txt _ => []
  | .elem _ _ _ cs => descendantsList cs
termination_by structural x => x

def descendantsList : List Node → List Node
  | [] => []
  | c :: cs => c :: c.descendants ++ descendantsList cs
termination_by structural x => x

end

mutual

/-- bs4 `tag.clear()` applied to every node matching `p`: each matching
element loses all of its contents.  The source first computes
`find_all(...)` and then clears each hit; clearing an element that sits
inside an already-cleared element is a no-op on the final tree, so the
effect equals this single recursive pass. -/
def clearMatching (p : Node → Bool) : Node → Node
  | .txt s => .txt s
  | .elem t i c cs =>
      if p (.elem t i c cs) then .elem t i c []
      else .elem t i c (clearMatchingList p cs)
termination_by structural x => x

def clearMatchingList (p : Node → Bool) : List Node → List Node
  | [] => []
  | n :: ns => clearMatching p n :: clearMatchingList p ns
termination_by structural x => x

end

/-- CSS selector `tag.class` (also bs4 `find_all(tag, class_=cls)`):
an element with the given tag name carrying `cls` in its class list. -/
def matchTagClass (tag cls : String) : Node → Bool
  | .elem t _ cs _ => t = tag && cs.contains cls
  | .txt _ => false

/-- CSS selector `tag#id`. -/
def matchTagId (tag idv : String) : Node → Bool
  | .elem t i _ _ => t = tag && i = some idv
  | .txt _ => false

/-- CSS selector `tag` (any element with that tag name). -/
def matchTag (tag : String) : Node → Bool
  | .elem t _ _ _ => t = tag
  | .txt _ => false

/-- bs4 `soup.select(sel)`: all matching descendants, document order. -/
def selectAll (p : Node → Bool) (n : Node) : List Node :=
  n.descendants.filter p

/-- bs4 `soup.select_one(sel)`: the first match or `None`. -/
def selectOne (p : Node → Bool) (n : Node) : Option Node :=
  (selectAll p n).head?

/-- Python truthiness of a bs4 `Tag`: `Tag` defines `__len__` as the
number of its contents, so an element is truthy iff it has at least one
child.  Used by the source's `if chapter_name:`-style guards. -/
def Node.truthy : Node → Bool
  | .elem _ _ _ cs => !cs.isEmpty
  | .txt s => !s.isEmpty

/-- `if x:` on an optional tag: `None` is falsy, a tag is truthy iff it
has contents. -/
def optTruthy (o : Option Node) : Option Node :=
  match o with
  | some n => if n.truthy then some n else none
  | none => none

/-! ## ContentTransformer: `get_content` (src/download.py lines 175-230)

`get_content(uri, lang)` fetches a reader store, selects
`contentStore[activeContent]`, reads `meta.title` and the
`data-content-type` page attribute, parses `content.body` with
BeautifulSoup and builds the output record.  The fetch, store lookup and
HTML parsing are external capabilities; the transformation below starts
from the already-extracted `uri`, title, data type and parsed body
(`soup`), embedding lines 186-230 of the source. -/

/-- `{"number": i, "text": ...}` entries of `data["verses"]`. -/
structure VerseRecord where
  number : Nat
  text : String
deriving Repr, DecidableEq

/-- Python `str.strip()`: drop leading and trailing whitespace. -/
def pyStrip (s : String) : String :=
  ((s.toList.dropWhile Char.isWhitespace).reverse.dropWhile
    Char.isWhitespace).reverse.asString

/-- Python `str.split("\n")`. -/
def splitLinesAux : List Char → List (List Char)
  | [] => [[]]
  | c :: rest =>
      match splitLinesAux rest with
      | [] => [[]]
      | l :: ls => if c = '\n' then [] :: l :: ls else (c :: l) :: ls

def pySplitNewlines (s : String) : List String :=
  (splitLinesAux s.toList).map List.asString

/-- `_get_striped_paragraphs` (src/download.py lines 99-100): split on
newlines, strip each piece, keep the non-empty ones. -/
def getStripedParagraphs (text : String) : List String :=
  ((pySplitNewlines text).map pyStrip).filter (fun p => !p.isEmpty)

/-- Lines 217-220: clear every `sup.marker` descendant, then every
`span.verse-number` descendant, of one verse element. -/
def stripVerse (v : Node) : Node :=
  clearMatching (matchTagClass "span" "verse-number")
    (clearMatching (matchTagClass "sup" "marker") v)

/-- Lines 214-221: `enumerate(verses, start=1)` over the stripped verse
elements, recording the enumeration index (not any number embedded in the
markup) and the stripped, trimmed text. -/
def versesData (vs : List Node) : List VerseRecord :=
  (List.enumFrom 1 vs).map (fun p => ⟨p.1, pyStrip (stripVerse p.2).textContent⟩)

/-- The `data` dictionary built by `get_content`; keys that the source
only sets conditionally are `Option` fields (absent = `none`). -/
structure ContentData where
  uri : String
  title : String
  data_type : String
  chapter_name : Option String := none
  chapter_summary : Option (List String) := none
  book_title : Option String := none
  book_intro : Option (List String) := none
  subtitle : Option (List String) := none
  verses : Option (List VerseRecord) := none
  text : Option (List String) := none
deriving Repr, DecidableEq

/-- Line 199's comparison `book_title != content_title` compares the bs4
`Tag` object itself (not its text) against the title string.  bs4's
`Tag.__eq__` requires the other operand to expose `name`/`attrs`/
`contents`, which a `str` does not, so a `Tag` never equals a `str` and
the `!=` is always `True`. -/
def tagNeStr (_t : Node) (_s : String) : Bool := true

/-- `get_content`, src/download.py lines 186-230, from the point where
the meta title, data type and parsed body markup are in hand. -/
def getContent (uri contentTitle dataType : String) (soup : Node) :
    ContentData :=
  let chapterName := optTruthy (selectOne (matchTagClass "p" "title-number") soup)
  let chapterSummary := optTruthy (selectOne (matchTagClass "p" "study-summary") soup)
  let bookTitle := optTruthy (selectOne (matchTagId "h1" "title1") soup)
  let bookIntro := optTruthy (selectOne (matchTagClass "p" "intro") soup)
  let subtitle := optTruthy (selectOne (matchTagClass "p" "subtitle") soup)
  let base : ContentData :=
    { uri := uri
      title := contentTitle
      data_type := dataType
      chapter_name := chapterName.map (fun n => pyStrip n.textContent)
      chapter_summary := chapterSummary.map (fun n => getStripedParagraphs n.textContent)
      book_title :=
        match bookTitle with
        | some n =>
            if tagNeStr n contentTitle then some (pyStrip n.textContent) else none
        | none => none
      book_intro := bookIntro.map (fun n => getStripedParagraphs n.textContent)
      subtitle := subtitle.map (fun n => getStripedParagraphs n.textContent) }
  match selectOne (matchTagClass "div" "body-block") soup with
  | some bodyBlock =>
      let verses := selectAll (matchTagClass "p" "verse") bodyBlock
      if verses.isEmpty then
        { base with
            text := some ((selectAll (matchTag "p") bodyBlock).map
              (fun p => pyStrip p.textContent)) }
      else
        { base with verses := some (versesData verses) }
  | none => base

/-! ## Fixtures for the ContentTransformer -/

/-- A verse paragraph `<p class="verse"><span class="verse-number">num</span>
<sup class="marker">mk</sup>body</p>`. -/
def verseNode (num mk body : String) : Node :=
  .elem "p" none ["verse"]
    [ .elem "span" none ["verse-number"] [.txt num]
    , .elem "sup" none ["marker"] [.txt mk]
    , .txt body ]

/-- Body block with three verses whose embedded numbering reads 5, 5, 7. -/
def fixtureVerseBody : Node :=
  .elem "div" none ["body-block"]
    [ verseNode "5" "q" "First verse text"
    , verseNode "5" "z" "Second verse text"
    , verseNode "7" "j" "Third verse text" ]

/-- Document with the three-verse body block. -/
def fixtureVerseSoup : Node :=
  .elem "[document]" none [] [.elem "html" none [] [fixtureVerseBody]]

/-- Body block with no verse-tagged blocks, two plain paragraphs. -/
def fixtureParaBody : Node :=
  .elem "div" none ["body-block"]
    [ .elem "p" none [] [.txt "  First paragraph. "]
    , .elem "p" none [] [.txt "Second paragraph."] ]

/-- Document with the two-paragraph body block. -/
def fixtureParaSoup : Node :=
  .elem "[document]" none [] [.elem "html" none [] [fixtureParaBody]]

/-- Document whose `<h1 id="title1">` text equals the main title. -/
def fixtureSameTitleSoup : Node :=
  .elem "[document]" none []
    [ .elem "html" none []
        [ .elem "h1" (some "title1") [] [.txt "Alma 5"]
        , .elem "div" none ["body-block"]
            [.elem "p" none [] [.txt "Body."]] ] ]

/-! ## PageStateExtractor: the body of `get_reader_store`
(src/download.py lines 64-90)

The extraction step operates on the serialized text of the page's
`<script>` elements (`str(script)`); producing that list from the raw
HTML is BeautifulSoup's job and is treated as an external parse
capability. -/

/-- Python's `needle in hay` substring test. -/
def listContainsSub (needle : List Char) : List Char → Bool
  | [] => needle.isEmpty
  | c :: rest => needle.isPrefixOf (c :: rest) || listContainsSub needle rest

/-- `"__INITIAL_STATE__" in str(script)` (line 70). -/
def containsMarker (s : String) : Bool :=
  listContainsSub "__INITIAL_STATE__".toList s.toList

/-- The lazy capture `(.*?)";` of the regex: consume characters (never a
newline, since `.` does not match `\n`) until the first `";`, returning
the shortest capture. -/
def takeLazyCapture : List Char → Option (List Char)
  | '"' :: ';' :: _ => some []
  | c :: rest => if c = '\n' then none else (takeLazyCapture rest).map (c :: ·)
  | [] => none

/-- Attempt to match `window.__INITIAL_STATE__ = "(.*?)";` at the start
of `cs`: the literal `window`, one arbitrary non-newline character (the
unescaped `.` of the pattern), the literal `__INITIAL_STATE__ = "`, then
the lazy capture up to `";`. -/
def matchStateAt (cs : List Char) : Option (List Char) :=
  if "window".toList.isPrefixOf cs then
    match cs.drop 6 with
    | c :: rest =>
        if c ≠ '\n' ∧ "__INITIAL_STATE__ = \"".toList.isPrefixOf rest then
          takeLazyCapture (rest.drop "__INITIAL_STATE__ = \"".toList.length)
        else none
    | [] => none
  else none

/-- `re.search(r'window.__INITIAL_STATE__ = "(.*?)";', s)` (lines 76-78):
the leftmost position admitting a match wins; returns the capture
group. -/
def searchStateAux : List Char → Option (List Char)
  | [] => matchStateAt []
  | c :: rest =>
      match matchStateAt (c :: rest) with
      | some cap => some cap
      | none => searchStateAux rest

def regexSearchState (s : String) : Option String :=
  (searchStateAux s.toList).map List.asString

/-! ### `base64.b64decode` (line 88)

Standard-alphabet base64 with `validate=False`: characters outside the
alphabet and `'='` are discarded before decoding, and incorrect padding
raises `binascii.Error` (modelled as `none`).  Exotic placements of
padding characters accepted by some CPython versions are not modelled;
no theorem below evaluates such an input. -/

def b64Val (c : Char) : Option Nat :=
  if 'A' ≤ c ∧ c ≤ 'Z' then some (c.toNat - 'A'.toNat)
  else if 'a' ≤ c ∧ c ≤ 'z' then some (c.toNat - 'a'.toNat + 26)
  else if '0' ≤ c ∧ c ≤ '9' then some (c.toNat - '0'.toNat + 52)
  else if c = '+' then some 62
  else if c = '/' then some 63
  else none

def isB64Char (c : Char) : Bool := (b64Val c).isSome

/-- Decode the filtered character stream quad by quad. -/
def decodeB64Quads : List Char → Option (List Nat)
  | [] => some []
  | a :: b :: c :: d :: rest =>
      match b64Val a, b64Val b, b64Val c, b64Val d with
      | some x, some y, some z, some w =>
          (decodeB64Quads rest).map
            (fun bs =>
              (x * 4 + y / 16) :: (y % 16 * 16 + z / 4) :: (z % 4 * 64 + w) :: bs)
      | some x, some y, some z, none =>
          if d = '=' ∧ rest = [] then
            some [x * 4 + y / 16, y % 16 * 16 + z / 4]
          else none
      | some x, some y, none, none =>
          if c = '=' ∧ d = '=' ∧ rest = [] then some [x * 4 + y / 16]
          else none
      | _, _, _, _ => none
  | _ => none

def b64decode (s : String) : Option (List Nat) :=
  decodeB64Quads (s.toList.filter (fun c => isB64Char c || c = '='))

/-! ### `json.loads` (line 89)

`json.loads(bytes)` first decodes the bytes as UTF-8
(`UnicodeDecodeError` on invalid sequences) and then parses JSON
(`json.JSONDecodeError` on malformed input).  Numbers are kept as their
raw lexemes; their numeric value is never consumed by the program. -/

/-- Strict UTF-8 decoding of a byte list. -/
def utf8Decode : List Nat → Option (List Char)
  | [] => some []
  | b :: rest =>
      if b < 0x80 then
        (utf8Decode rest).map (Char.ofNat b :: ·)
      else if 0xC2 ≤ b ∧ b ≤ 0xDF then
        match rest with
        | b2 :: rest2 =>
            if 0x80 ≤ b2 ∧ b2 ≤ 0xBF then
              (utf8Decode rest2).map
                (Char.ofNat ((b - 0xC0) * 64 + (b2 - 0x80)) :: ·)
            else none
        | _ => none
      else if 0xE0 ≤ b ∧ b ≤ 0xEF then
        match rest with
        | b2 :: b3 :: rest3 =>
            let lo2 := if b = 0xE0 then 0xA0 else 0x80
            let hi2 := if b = 0xED then 0x9F else 0xBF
            if (lo2 ≤ b2 ∧ b2 ≤ hi2) ∧ 0x80 ≤ b3 ∧ b3 ≤ 0xBF then
              (utf8Decode rest3).map
                (Char.ofNat ((b - 0xE0) * 4096 + (b2 - 0x80) * 64 + (b3 - 0x80)) :: ·)
            else none
        | _ => none
      else if 0xF0 ≤ b ∧ b ≤ 0xF4 then
        match rest with
        | b2 :: b3 :: b4 :: rest4 =>
            let lo2 := if b = 0xF0 then 0x90 else 0x80
            let hi2 := if b = 0xF4 then 0x8F else 0xBF
            if (lo2 ≤ b2 ∧ b2 ≤ hi2) ∧ (0x80 ≤ b3 ∧ b3 ≤ 0xBF) ∧
                0x80 ≤ b4 ∧ b4 ≤ 0xBF then
              (utf8Decode rest4).map
                (Char.ofNat ((b - 0xF0) * 262144 + (b2 - 0x80) * 4096 +
                  (b3 - 0x80) * 64 + (b4 - 0x80)) :: ·)
            else none
        | _ => none
      else none

/-- JSON values; numbers keep their source lexeme. -/
inductive Json where
  | null
  | bool (b : Bool)
  | num (lexeme : String)
  | str (s : String)
  | arr (items : List Json)
  | obj (members : List (String × Json))
deriving Repr

/-- JSON whitespace. -/
def isJsonWs (c : Char) : Bool := c = ' ' || c = '\t' || c = '\n' || c = '\r'

def skipJsonWs : List Char → List Char
  | c :: cs => if isJsonWs c then skipJsonWs cs else c :: cs
  | [] => []

def hexVal (c : Char) : Option Nat :=
  if '0' ≤ c ∧ c ≤ '9' then some (c.toNat - '0'.toNat)
  else if 'a' ≤ c ∧ c ≤ 'f' then some (c.toNat - 'a'.toNat + 10)
  else if 'A' ≤ c ∧ c ≤ 'F' then some (c.toNat - 'A'.toNat + 10)
  else none

/-- Body of a JSON string after the opening quote; returns the decoded
string and the remaining input.  Surrogate-pair recombination of
`\uXXXX` escapes is not modelled. -/
def parseJsonStringBody : List Char → Option (String × List Char)
  | [] => none
  | '"' :: rest => some ("", rest)
  | '\\' :: e :: rest =>
      if e = 'u' then
        match rest with
        | h1 :: h2 :: h3 :: h4 :: rest4 =>
            match hexVal h1, hexVal h2, hexVal h3, hexVal h4 with
            | some v1, some v2, some v3, some v4 =>
                (parseJsonStringBody rest4).map (fun (s, r) =>
                  ((Char.ofNat (v1 * 4096 + v2 * 256 + v3 * 16 + v4)).toString ++ s, r))
            | _, _, _, _ => none
        | _ => none
      else
        match
          (if e = '"' then some '"'
           else if e = '\\' then some '\\'
           else if e = '/' then some '/'
           else if e = 'b' then some (Char.ofNat 8)
           else if e = 'f' then some (Char.ofNat 12)
           else if e = 'n' then some '\n'
           else if e = 'r' then some '\r'
           else if e = 't' then some '\t'
           else none) with
        | some c => (parseJsonStringBody rest).map (fun (s, r) => (c.toString ++ s, r))
        | none => none
  | c :: rest =>
      if c.toNat < 0x20 then none
      else (parseJsonStringBody rest).map (fun (s, r) => (c.toString ++ s, r))
termination_by structural cs => cs

def spanDigits (cs : List Char) : List Char × List Char :=
  (cs.takeWhile Char.isDigit, cs.dropWhile Char.isDigit)

/-- A JSON number token (`-? int frac? exp?`), returned as its lexeme. -/
def parseJsonNumber (cs : List Char) : Option (String × List Char) := do
  let (sign, cs1) :=
    match cs with
    | '-' :: rest => (['-'], rest)
    | _ => ([], cs)
  let (intPart, cs2) ←
    match cs1 with
    | '0' :: rest => some (['0'], rest)
    | c :: _ =>
        if c.isDigit then
          let (ds, rest) := spanDigits cs1
          some (ds, rest)
        else none
    | [] => none
  let (fracPart, cs3) ←
    match cs2 with
    | '.' :: rest =>
        let (ds, rest2) := spanDigits rest
        if ds.isEmpty then none else some ('.' :: ds, rest2)
    | _ => some ([], cs2)
  let (expPart, cs4) ←
    match cs3 with
    | e :: rest =>
        if e = 'e' ∨ e = 'E' then
          let (sgn, rest2) :=
            match rest with
            | '+' :: r => (['+'], r)
            | '-' :: r => (['-'], r)
            | _ => ([], rest)
          let (ds, rest3) := spanDigits rest2
          if ds.isEmpty then none else some (e :: (sgn ++ ds), rest3)
        else some ([], cs3)
    | [] => some ([], cs3)
  some ((sign ++ intPart ++ fracPart ++ expPart).asString, cs4)

mutual

/-- One JSON value, fuel-bounded recursion. -/
def parseJsonValue : Nat → List Char → Option (Json × List Char)
  | 0, _ => none
  | fuel + 1, cs =>
      match skipJsonWs cs with
      | 'n' :: 'u' :: 'l' :: 'l' :: rest => some (.null, rest)
      | 't' :: 'r' :: 'u' :: 'e' :: rest => some (.bool true, rest)
      | 'f' :: 'a' :: 'l' :: 's' :: 'e' :: rest => some (.bool false, rest)
      | '"' :: rest => (parseJsonStringBody rest).map (fun (s, r) => (.str s, r))
      | '{' :: rest =>
          (match skipJsonWs rest with
           | '}' :: rest2 => some (.obj [], rest2)
           | cs2 => (parseJsonMembers fuel cs2).map (fun (ms, r) => (.obj ms, r)))
      | '[' :: rest =>
          (match skipJsonWs rest with
           | ']' :: rest2 => some (.arr [], rest2)
           | cs2 => (parseJsonItems fuel cs2).map (fun (xs, r) => (.arr xs, r)))
      | cs' => (parseJsonNumber cs').map (fun (s, r) => (.num s, r))

/-- `"key": value` members of an object, after the opening brace. -/
def parseJsonMembers : Nat → List Char → Option (List (String × Json) × List Char)
  | 0, _ => none
  | fuel + 1, cs => do
      let (key, r1) ←
        match skipJsonWs cs with
        | '"' :: rest => parseJsonStringBody rest
        | _ => none
      let r2 ←
        match skipJsonWs r1 with
        | ':' :: rest => some rest
        | _ => none
      let (v, r3) ← parseJsonValue fuel r2
      match skipJsonWs r3 with
      | ',' :: rest =>
          (parseJsonMembers fuel rest).map (fun (ms, r) => ((key, v) :: ms, r))
      | '}' :: rest => some ([(key, v)], rest)
      | _ => none

/-- Array items, after the opening bracket. -/
def parseJsonItems : Nat → List Char → Option (List Json × List Char)
  | 0, _ => none
  | fuel + 1, cs => do
      let (v, r1) ← parseJsonValue fuel cs
      match skipJsonWs r1 with
      | ',' :: rest => (parseJsonItems fuel rest).map (fun (xs, r) => (v :: xs, r))
      | ']' :: rest => some ([v], rest)
      | _ => none

end

/-- `json.loads` on bytes: UTF-8 decode, parse one value, allow only
trailing whitespace.  The two stdlib failures are distinguished. -/
inductive JsonLoadsResult where
  | ok (j : Json)
  | unicodeError
  | jsonError

def jsonLoads (bytes : List Nat) : JsonLoadsResult :=
  match utf8Decode bytes with
  | none => .unicodeError
  | some cs =>
      match parseJsonValue (cs.length + 1) cs with
      | some (j, rest) =>
          if (skipJsonWs rest).isEmpty then .ok j else .jsonError
      | none => .jsonError

/-- `initial_state["reader"]` (line 90): dictionary lookup, first match
wins. -/
def Json.getKey (j : Json) (key : String) : Option Json :=
  match j with
  | .obj ms => (ms.find? (fun m => m.1 = key)).map Prod.snd
  | _ => none

/-- The Python exceptions that can escape one extraction attempt. -/
inductive PyErr where
  | noPrimaryContent
  | noTranslationAvailable
  | binasciiError
  | unicodeDecodeError
  | jsonDecodeError
  | keyError
deriving Repr, DecidableEq

/-- Lines 64-90 of `get_reader_store`, acting on the serialized script
elements of one response: find the first script containing
`__INITIAL_STATE__` (an empty result raises `NoPrimaryContentFoundError`),
search it for the assignment pattern (no match raises
`NoPrimaryContentFoundError`; the pattern has a capture group, so the
`if not groups` branch at lines 83-84 is unreachable), base64-decode the
capture (`binascii.Error` propagates uncaught), `json.loads` the bytes
(`UnicodeDecodeError`/`json.JSONDecodeError` propagate uncaught), and
subscript the result with `"reader"` (`KeyError`/`TypeError` propagates
uncaught, modelled as `keyError`). -/
def extractInitialState (scripts : List String) : Except PyErr Json :=
  match scripts.find? containsMarker with
  | none => .error .noPrimaryContent
  | some script =>
      match regexSearchState script with
      | none => .error .noPrimaryContent
      | some b64 =>
          match b64decode b64 with
          | none => .error .binasciiError
          | some bytes =>
              match jsonLoads bytes with
              | .unicodeError => .error .unicodeDecodeError
              | .jsonError => .error .jsonDecodeError
              | .ok initialState =>
                  match initialState.getKey "reader" with
                  | none => .error .keyError
                  | some reader => .ok reader

/-! ## ReaderClient: `get_reader_store` (src/download.py lines 51-96)

The network is modelled as the sequence of responses the successive
`requests.get(url)` calls would return, and BeautifulSoup's
script-element extraction as a function from the response text to the
list of serialized `<script>` elements. -/

structure HttpResponse where
  status : Nat
  text : String

inductive GrsResult where
  | ok (reader : Json)
  | raised (e : PyErr)
  | noRetriesLeft (lastHtml : Option String)

/-- Observable outcome of one `get_reader_store` call: the result, the
number of requests issued, the number of responses on which extraction
was attempted (lines 64 onward), and the `time.sleep` durations in
order. -/
structure GrsTrace where
  result : GrsResult
  attempts : Nat
  extractions : Nat
  sleeps : List Nat

/-- The `while retries:` loop of `get_reader_store`, recursing on the
remaining retry budget.  `i` indexes the next response and `htmlDoc` is
the current value of the `html_doc` variable (assigned at line 64, only
after a 200 status).  A non-200 status raises
`NoTranslationAvailableError` (uncaught) when `raiseNoTranslation` is
set, else `NoPrimaryContentFoundError`; the `except` clause catches only
`NoPrimaryContentFoundError`, decrements the budget and sleeps 2;
exhaustion raises `NoRetriesLeftError(html_doc)`. -/
def grsLoop (responses : Nat → HttpResponse) (parseScripts : String → List String)
    (raiseNoTranslation : Bool) : Nat → Nat → Option String → GrsTrace
  | 0, _, htmlDoc =>
      { result := .noRetriesLeft htmlDoc, attempts := 0, extractions := 0, sleeps := [] }
  | retries + 1, i, htmlDoc =>
      let resp := responses i
      if resp.status ≠ 200 then
        if raiseNoTranslation then
          { result := .raised .noTranslationAvailable, attempts := 1
            extractions := 0, sleeps := [] }
        else
          let rest := grsLoop responses parseScripts raiseNoTranslation retries (i + 1) htmlDoc
          { result := rest.result, attempts := rest.attempts + 1
            extractions := rest.extractions, sleeps := 2 :: rest.sleeps }
      else
        match extractInitialState (parseScripts resp.text) with
        | .ok reader =>
            { result := .ok reader, attempts := 1, extractions := 1, sleeps := [] }
        | .error .noPrimaryContent =>
            let rest := grsLoop responses parseScripts raiseNoTranslation retries (i + 1)
              (some resp.text)
            { result := rest.result, attempts := rest.attempts + 1
              extractions := rest.extractions + 1, sleeps := 2 :: rest.sleeps }
        | .error e =>
            { result := .raised e, attempts := 1, extractions := 1, sleeps := [] }

/-- `get_reader_store`: retry budget 5, `html_doc` initially `None`. -/
def getReaderStore (responses : Nat → HttpResponse)
    (parseScripts : String → List String) (raiseNoTranslation : Bool) : GrsTrace :=
  grsLoop responses parseScripts raiseNoTranslation 5 0 none

/-! ## TableOfContentsResolver: `get_entries` / `get_uris_from_entries`
(src/download.py lines 103-141) -/

/-- One raw item of a store's `entries` list: a dict with a `section`
key (whose value carries `title` and a nested `entries` list), a dict
with a `content` key (carrying `title` and `uri`), or anything else.
The source tests `"section" in item` before `"content" in item`. -/
inductive RawEntry where
  | section (title : String) (entries : List RawEntry)
  | content (title : String) (uri : String)
  | other
deriving Repr

/-- A node of the tree built by `get_entries`: the dicts
`{"type": "section", "title": ..., "entries": ...}` and
`{"type": "content", "title": ..., "uri": ...}`. -/
inductive Entry where
  | section (title : String) (entries : List Entry)
  | content (title : String) (uri : String)
deriving Repr

mutual

def entryDecEq : (a b : Entry) → Decidable (a = b)
  | .section t1 es1, .section t2 es2 =>
      have : Decidable (es1 = es2) := entryListDecEq es1 es2
      decidable_of_iff (t1 = t2 ∧ es1 = es2) (by simp)
  | .section _ _, .content _ _ => isFalse (fun h => Entry.noConfusion h)
  | .content _ _, .section _ _ => isFalse (fun h => Entry.noConfusion h)
  | .content t1 u1, .content t2 u2 =>
      decidable_of_iff (t1 = t2 ∧ u1 = u2) (by simp)
termination_by structural x => x

def entryListDecEq : (a b : List Entry) → Decidable (a = b)
  | [], [] => isTrue rfl
  | [], _ :: _ => isFalse (fun h => List.noConfusion h)
  | _ :: _, [] => isFalse (fun h => List.noConfusion h)
  | a :: as, b :: bs =>
      have : Decidable (a = b) := entryDecEq a b
      have : Decidable (as = bs) := entryListDecEq as bs
      decidable_of_iff (a = b ∧ as = bs) (by simp)
termination_by structural x => x

end

instance : DecidableEq Entry := entryDecEq

mutual

/-- `get_entries(store, excluded)` on `store["entries"]`: a `section`
item recurses into its nested entries; a `content` item is skipped when
its `uri` is in `excluded` (Python list membership); any other shape
raises `NotImplementedError` (line 127), modelled as `Except.error`.
The loop body for a single item lives in `getEntriesItem`; an item
yields zero or one nodes and the results are concatenated in order. -/
def getEntries (excluded : List String) : List RawEntry → Except Unit (List Entry)
  | [] => .ok []
  | item :: rest =>
      match getEntriesItem excluded item with
      | .error e => .error e
      | .ok headEntries =>
          match getEntries excluded rest with
          | .error e => .error e
          | .ok restEntries => .ok (headEntries ++ restEntries)
termination_by structural x => x

def getEntriesItem (excluded : List String) : RawEntry → Except Unit (List Entry)
  | .section title subs =>
      match getEntries excluded subs with
      | .error e => .error e
      | .ok subEntries => .ok [.section title subEntries]
  | .content title uri =>
      if excluded.contains uri then .ok [] else .ok [.content title uri]
  | .other => .error ()
termination_by structural x => x

end

mutual

/-- `get_uris_from_entries` (lines 132-141): a content dict contributes
its `uri`, a section dict its recursively flattened entries, pre-order. -/
def getUrisFromEntries : List Entry → List String
  | [] => []
  | e :: rest => getUrisFromEntry e ++ getUrisFromEntries rest
termination_by structural x => x

/-- One entry of the loop: `if "uri" in entry` then `if "entries" in
entry` (a content dict has only `uri`, a section dict only `entries`). -/
def getUrisFromEntry : Entry → List String
  | .content _ uri => [uri]
  | .section _ es => getUrisFromEntries es
termination_by structural x => x

end

mutual

/-- The `uri`s of all content items of a raw entries list, pre-order
(specification-side description of `get_entries` + flattening). -/
def rawContentUris : List RawEntry → List String
  | [] => []
  | item :: rest => rawContentUrisItem item ++ rawContentUris rest
termination_by structural x => x

def rawContentUrisItem : RawEntry → List String
  | .section _ subs => rawContentUris subs
  | .content _ uri => [uri]
  | .other => []
termination_by structural x => x

end

mutual

/-- Whether a raw entries tree contains an item of unrecognized shape. -/
def containsOther : List RawEntry → Bool
  | [] => false
  | item :: rest => containsOtherItem item || containsOther rest
termination_by structural x => x

def containsOtherItem : RawEntry → Bool
  | .section _ subs => containsOther subs
  | .content _ _ => false
  | .other => true
termination_by structural x => x

end

/-! ## FetchOrchestrator: `main` (src/download.py lines 233-278)

One `get_books` call for a pair either returns the assembled books value
(modelled opaquely as `Json`), raises `NoTranslationAvailableError`, or
raises some other exception.  The outcome of the attempt with index `i`
for a given output file name is supplied by an oracle, and the output
directory is a list of `(file name, contents)` pairs. -/

inductive PairOutcome where
  | success (books : Json)
  | noTranslation
  | otherError

/-- Result of the `while retries:` loop at lines 254-277 for one pair. -/
inductive PairLoopResult where
  | saved (books : Json)
  | noTranslationSkip
  | exhausted
deriving Repr

structure PairTrace where
  result : PairLoopResult
  attempts : Nat
  sleeps : List Nat

/-- The per-pair retry loop: budget 3; `NoTranslationAvailableError`
breaks out (the pair is skipped); any other exception decrements the
budget and sleeps 10; success saves and breaks; the `while`/`else`
raises `NoRetriesLeftError` when the budget is exhausted. -/
def pairLoop (oracle : Nat → PairOutcome) : Nat → Nat → PairTrace
  | 0, _ => { result := .exhausted, attempts := 0, sleeps := [] }
  | retries + 1, i =>
      match oracle i with
      | .success books => { result := .saved books, attempts := 1, sleeps := [] }
      | .noTranslation => { result := .noTranslationSkip, attempts := 1, sleeps := [] }
      | .otherError =>
          let rest := pairLoop oracle retries (i + 1)
          { result := rest.result, attempts := rest.attempts + 1
            sleeps := 10 :: rest.sleeps }

/-- What the run records for one pair. -/
inductive PairEvent where
  | skippedExisting (name : String)
  | saved (name : String) (attempts : Nat) (sleeps : List Nat)
  | noTranslationSkip (name : String) (attempts : Nat) (sleeps : List Nat)
  | fatalExhausted (name : String) (attempts : Nat) (sleeps : List Nat)
deriving Repr

/-- Outcome of a whole `main` run: `ok = false` means
`NoRetriesLeftError` propagated out of `main`, aborting the run. -/
structure MainOut where
  ok : Bool
  events : List PairEvent
  files : List (String × Json)
  fetches : Nat

/-- `f"{scripture.value}-{lang.value}.json"` (line 249). -/
def pairName (scripture lang : String) : String :=
  scripture ++ "-" ++ lang ++ ".json"

/-- The body of `main`'s nested loops, over the remaining
`(scripture, lang)` pairs: an existing output file with `overwrite`
unset is skipped before any fetching; otherwise the pair loop runs, a
success appends the output file, a translation-less pair is skipped, and
an exhausted budget raises `NoRetriesLeftError`, ending the whole run.
`fetches` counts `get_books` calls (each is at least one network
fetch). -/
def mainLoop (oracle : String → Nat → PairOutcome) (overwrite : Bool) :
    List (String × String) → List (String × Json) → MainOut
  | [], files => { ok := true, events := [], files := files, fetches := 0 }
  | (scripture, lang) :: rest, files =>
      let name := pairName scripture lang
      if files.any (fun f => f.1 = name) && !overwrite then
        let r := mainLoop oracle overwrite rest files
        { r with events := .skippedExisting name :: r.events }
      else
        let pt := pairLoop (oracle name) 3 0
        match pt.result with
        | .saved books =>
            let r := mainLoop oracle overwrite rest (files ++ [(name, books)])
            { r with
                events := .saved name pt.attempts pt.sleeps :: r.events
                fetches := pt.attempts + r.fetches }
        | .noTranslationSkip =>
            let r := mainLoop oracle overwrite rest files
            { r with
                events := .noTranslationSkip name pt.attempts pt.sleeps :: r.events
                fetches := pt.attempts + r.fetches }
        | .exhausted =>
            { ok := false
              events := [.fatalExhausted name pt.attempts pt.sleeps]
              files := files, fetches := pt.attempts }

/-- Iteration order of `main`: languages outer, scriptures inner. -/
def pairsOf (languages scriptures : List String) : List (String × String) :=
  languages.flatMap (fun lang => scriptures.map (fun s => (s, lang)))

/-- `main(scriptures, languages, output_dir, pool, overwrite)`. -/
def mainRun (oracle : String → Nat → PairOutcome) (languages scriptures : List String)
    (files0 : List (String × Json)) (overwrite : Bool) : MainOut :=
  mainLoop oracle overwrite (pairsOf languages scriptures) files0

/-! ## Remaining fixtures -/

/-- The 3-level TOC fixture: `Section(A) -> [Content(a1),
Section(B) -> [Content(b1), Content(b2)]]`. -/
def fixtureTocRaw : List RawEntry :=
  [ .section "A"
      [ .content "a1 title" "a1"
      , .section "B" [.content "b1 title" "b1", .content "b2 title" "b2"] ] ]

/-- A script whose captured payload is not decodable base64 (five data
characters cannot be one more than a multiple of four). -/
def badB64Script : String :=
  "<script>window.__INITIAL_STATE__ = \"AAAAA\";</script>"

/-- A script whose payload decodes (`ew==` is one left brace) but is not
valid JSON. -/
def badJsonScript : String :=
  "<script>window.__INITIAL_STATE__ = \"ew==\";</script>"

/-- A script with a valid payload: base64 of a JSON object with a
`reader` key. -/
def goodStateScript : String :=
  "<script>window.__INITIAL_STATE__ = \"eyJyZWFkZXIiOnsieCI6MX19\";</script>"

/-- The whole response text serialized as the single script element. -/
def echoScripts : String → List String := fun text => [text]

/-- A server that always answers 200 with marker-less content. -/
def npcResponses : Nat → HttpResponse :=
  fun _ => { status := 200, text := "no state here" }

/-- A server that always answers 404. -/
def notFoundResponses : Nat → HttpResponse :=
  fun _ => { status := 404, text := "not found" }

/-- A `get_books` oracle that always raises a non-translation error. -/
def allOtherOracle : String → Nat → PairOutcome := fun _ _ => .otherError

/-- A `get_books` oracle that always raises
`NoTranslationAvailableError`. -/
def allNoTransOracle : String → Nat → PairOutcome := fun _ _ => .noTranslation

/-- An output directory that already holds the `bofm`-`eng` file. -/
def fixtureFiles : List (String × Json) := [(pairName "bofm" "eng", .null)]

/-! ## Shared lemmas -/

theorem enumFrom_map_fst {α : Type} (n : Nat) (l : List α) :
    (List.enumFrom n l).map Prod.fst = List.range' n l.length := by
  induction l generalizing n with
  | nil => rfl
  | cons a l ih => simp [List.enumFrom, List.range'_succ, ih]

/-- The assigned verse numbers are always `1..N` regardless of the verse
markup. -/
theorem versesData_numbers (vs : List Node) :
    (versesData vs).map VerseRecord.number = List.range' 1 vs.length := by
  simp only [versesData, List.map_map]
  have h : (VerseRecord.number ∘ fun p : Nat × Node =>
      (⟨p.1, pyStrip (stripVerse p.2).textContent⟩ : VerseRecord)) = Prod.fst := rfl
  rw [h, enumFrom_map_fst]

/-! ## Claim theorems -/

/-- C1: for every document body whose body-block contains N verse-tagged
blocks, `get_content` assigns verse numbers `1..N` sequentially in
document order after stripping the `sup.marker` and `span.verse-number`
sub-elements; in particular, on a body of three verses whose embedded
numbers read 5, 5, 7 the output numbers are 1, 2, 3 and no character of
the stripped sub-elements (`5`, `7`, and the marker letters `q`, `z`,
`j`) survives into any verse text. -/
theorem c1_verse_numbering_sequential_and_stripped :
    (∀ uri t d soup bodyBlock,
        selectOne (matchTagClass "div" "body-block") soup = some bodyBlock →
        (selectAll (matchTagClass "p" "verse") bodyBlock).isEmpty = false →
        (getContent uri t d soup).verses =
          some (versesData (selectAll (matchTagClass "p" "verse") bodyBlock)) ∧
        (versesData (selectAll (matchTagClass "p" "verse") bodyBlock)).map
            VerseRecord.number =
          List.range' 1 (selectAll (matchTagClass "p" "verse") bodyBlock).length)
    ∧ (getContent "u" "T" "d" fixtureVerseSoup).verses =
        some [⟨1, "First verse text"⟩, ⟨2, "Second verse text"⟩,
          ⟨3, "Third verse text"⟩]
    ∧ (∀ v ∈ ((getContent "u" "T" "d" fixtureVerseSoup).verses.getD []),
        (v.text.toList.contains '5' || v.text.toList.contains '7' ||
         v.text.toList.contains 'q' || v.text.toList.contains 'z' ||
         v.text.toList.contains 'j') = false) := by
  refine ⟨?_, by decide, by decide⟩
  intro uri t d soup bodyBlock hbb hne
  exact ⟨by simp [getContent, hbb, hne], versesData_numbers _⟩

/-- Witness for C1 at the three-verse fixture. -/
theorem c1_verse_numbering_sequential_and_stripped_witness :
    (getContent "u" "T" "d" fixtureVerseSoup).verses =
      some (versesData (selectAll (matchTagClass "p" "verse") fixtureVerseBody)) ∧
    (versesData (selectAll (matchTagClass "p" "verse") fixtureVerseBody)).map
        VerseRecord.number =
      List.range' 1 (selectAll (matchTagClass "p" "verse") fixtureVerseBody).length :=
  c1_verse_numbering_sequential_and_stripped.1 "u" "T" "d" fixtureVerseSoup
    fixtureVerseBody rfl rfl

/-- C8: for every document body whose body-block has zero verse-tagged
blocks but at least one `p` block, the output has `text` (the paragraph
field) populated with the trimmed text of those blocks, no `verses`
field, and hence exactly one of the two fields. -/
theorem c8_paragraphs_without_verses :
    ∀ uri t d soup bodyBlock,
      selectOne (matchTagClass "div" "body-block") soup = some bodyBlock →
      selectAll (matchTagClass "p" "verse") bodyBlock = [] →
      selectAll (matchTag "p") bodyBlock ≠ [] →
      (getContent uri t d soup).text =
        some ((selectAll (matchTag "p") bodyBlock).map
          (fun p => pyStrip p.textContent)) ∧
      (getContent uri t d soup).text.getD [] ≠ [] ∧
      (getContent uri t d soup).verses = none ∧
      ((getContent uri t d soup).text.isSome ∧
        ¬ (getContent uri t d soup).verses.isSome) := by
  intro uri t d soup bodyBlock hbb hnov hp
  have htext : (getContent uri t d soup).text =
      some ((selectAll (matchTag "p") bodyBlock).map
        (fun p => pyStrip p.textContent)) := by
    simp [getContent, hbb, hnov]
  have hverses : (getContent uri t d soup).verses = none := by
    simp [getContent, hbb, hnov]
  refine ⟨htext, ?_, hverses, ?_, ?_⟩
  · simpa [htext] using hp
  · simp [htext]
  · simp [hverses]

/-- Witness for C8 at the two-paragraph fixture. -/
theorem c8_paragraphs_without_verses_witness :
    (getContent "u" "T" "d" fixtureParaSoup).text =
      some ((selectAll (matchTag "p") fixtureParaBody).map
        (fun p => pyStrip p.textContent)) ∧
    (getContent "u" "T" "d" fixtureParaSoup).text.getD [] ≠ [] ∧
    (getContent "u" "T" "d" fixtureParaSoup).verses = none ∧
    ((getContent "u" "T" "d" fixtureParaSoup).text.isSome ∧
      ¬ (getContent "u" "T" "d" fixtureParaSoup).verses.isSome) :=
  c8_paragraphs_without_verses "u" "T" "d" fixtureParaSoup fixtureParaBody rfl rfl
    (by decide)

/-- C9 (code bug): on a document whose `<h1 id="title1">` text equals
the main title (`"Alma 5"`), `get_content` still emits `book_title`,
because line 199 compares the bs4 `Tag` object (not its text) with the
title string and a `Tag` never equals a `str`.  The claim — and the
intent of `book_title != content_title` — says an equal title must not
be emitted. -/
theorem c9_book_title_emitted_despite_equal_title :
    (getContent "u" "Alma 5" "d" fixtureSameTitleSoup).title = "Alma 5" ∧
    pyStrip (Node.elem "h1" (some "title1") [] [Node.txt "Alma 5"]).textContent
      = "Alma 5" ∧
    (getContent "u" "Alma 5" "d" fixtureSameTitleSoup).book_title =
      some "Alma 5" := by
  decide

/-- C2 counterexample: a response whose marker script carries an
undecodable base64 payload makes the extraction step fail with
`binascii.Error`, not `NoPrimaryContentFoundError`, although the marker
is present and the assignment pattern matches. -/
theorem c2_counterexample_bad_base64_not_noPrimaryContent :
    extractInitialState [badB64Script] = .error .binasciiError ∧
    (Except.error PyErr.binasciiError ≠
      (Except.error PyErr.noPrimaryContent : Except PyErr Json)) ∧
    containsMarker badB64Script = true ∧
    (regexSearchState badB64Script).isSome = true := by
  refine ⟨rfl, ?_, rfl, rfl⟩
  intro hcontra
  exact PyErr.noConfusion (Except.error.inj hcontra)

/-- C2 (amended): the extraction step fails with
`NoPrimaryContentFoundError` exactly when no script block contains the
`__INITIAL_STATE__` marker or when the assignment pattern is absent from
the marker script; a base64 payload that fails to decode raises
`binascii.Error` and undecodable/invalid JSON raises
`UnicodeDecodeError`/`json.JSONDecodeError`, all of which are different
exceptions that escape `get_reader_store`'s `except
NoPrimaryContentFoundError` clause. -/
theorem c2_noPrimaryContent_exactly_marker_or_pattern :
    (∀ scripts, extractInitialState scripts = .error .noPrimaryContent ↔
      (scripts.find? containsMarker = none ∨
        ∃ s, scripts.find? containsMarker = some s ∧ regexSearchState s = none))
    ∧ extractInitialState [badB64Script] = .error .binasciiError
    ∧ extractInitialState [badJsonScript] = .error .jsonDecodeError
    ∧ extractInitialState ["<script>var x = 1;</script>", goodStateScript] =
        .ok (.obj [("x", .num "1")]) := by
  refine ⟨?_, rfl, rfl, rfl⟩
  intro scripts
  cases hf : scripts.find? containsMarker with
  | none => simp [extractInitialState, hf]
  | some sc =>
      cases hr : regexSearchState sc with
      | none => simp [extractInitialState, hf, hr]
      | some b64 =>
          simp only [extractInitialState, hf, hr]
          cases hb : b64decode b64 with
          | none => simp [hb, hr]
          | some bytes =>
              cases hj : jsonLoads bytes with
              | unicodeError => simp [hb, hj, hr]
              | jsonError => simp [hb, hj, hr]
              | ok j =>
                  cases hk : j.getKey "reader" with
                  | none => simp [hb, hj, hk, hr]
                  | some reader => simp [hb, hj, hk, hr]

/-- One failed 200-status attempt of the retry loop: extraction raises
`NoPrimaryContentFoundError`, the budget drops, `html_doc` becomes this
response's text and a 2-unit sleep is recorded. -/
theorem grsLoop_npc_step (responses : Nat → HttpResponse)
    (ps : String → List String) (flag : Bool) (r i : Nat) (hd : Option String)
    (h200 : (responses i).status = 200)
    (hex : extractInitialState (ps (responses i).text) = .error .noPrimaryContent) :
    grsLoop responses ps flag (r + 1) i hd =
      { result := (grsLoop responses ps flag r (i + 1) (some (responses i).text)).result
        attempts := (grsLoop responses ps flag r (i + 1) (some (responses i).text)).attempts + 1
        extractions :=
          (grsLoop responses ps flag r (i + 1) (some (responses i).text)).extractions + 1
        sleeps := 2 :: (grsLoop responses ps flag r (i + 1) (some (responses i).text)).sleeps } := by
  simp [grsLoop, h200, hex]

/-- When attempts `k, k+1, ...` all return status 200 but extraction
always raises `NoPrimaryContentFoundError`, a budget of `n` performs
exactly `n` attempts and `n` extractions, sleeps 2 units after each, and
raises `NoRetriesLeftError` carrying the last response body. -/
theorem grsLoop_all_npc (responses : Nat → HttpResponse)
    (ps : String → List String) (flag : Bool) :
    ∀ (n k : Nat) (hd : Option String),
      (∀ i, i < n → (responses (k + i)).status = 200 ∧
        extractInitialState (ps (responses (k + i)).text) = .error .noPrimaryContent) →
      grsLoop responses ps flag n k hd =
        { result := .noRetriesLeft
            (if n = 0 then hd else some (responses (k + n - 1)).text)
          attempts := n, extractions := n, sleeps := List.replicate n 2 } := by
  intro n
  induction n with
  | zero => intro k hd _; simp [grsLoop]
  | succ m ih =>
      intro k hd hk
      have h0 := hk 0 (by omega)
      rw [Nat.add_zero] at h0
      rw [grsLoop_npc_step responses ps flag m k hd h0.1 h0.2]
      have hrest := ih (k + 1) (some (responses k).text) (fun i hi => by
        have h := hk (i + 1) (by omega)
        rw [show k + (i + 1) = k + 1 + i by omega] at h
        exact h)
      rw [hrest]
      rcases Nat.eq_zero_or_pos m with hm | hm
      · subst hm; simp
      · have e1 : ¬ (m = 0) := by omega
        have e2 : k + 1 + m - 1 = k + (m + 1) - 1 := by omega
        simp [e1, e2, List.replicate_succ]

/-- C3: when every attempt yields a 200 response whose extraction raises
`NoPrimaryContentFoundError`, `get_reader_store` makes exactly 5
attempts (each time extracting), sleeps 2 time units after each failure
(in particular between consecutive attempts), and then raises
`NoRetriesLeftError` carrying the last raw response body. -/
theorem c3_retry_budget_and_noRetriesLeft (responses : Nat → HttpResponse)
    (ps : String → List String) (flag : Bool)
    (h : ∀ i, i < 5 → (responses i).status = 200 ∧
      extractInitialState (ps (responses i).text) = .error .noPrimaryContent) :
    getReaderStore responses ps flag =
      { result := .noRetriesLeft (some (responses 4).text), attempts := 5
        extractions := 5, sleeps := [2, 2, 2, 2, 2] } := by
  rw [getReaderStore, grsLoop_all_npc responses ps flag 5 0 none (fun i hi => by
    have hh := h i hi
    rw [Nat.zero_add]
    exact hh)]
  rfl

/-- Witness for C3: a server that always answers 200 without the
marker. -/
theorem c3_retry_budget_and_noRetriesLeft_witness :
    getReaderStore npcResponses echoScripts false =
      { result := .noRetriesLeft (some (npcResponses 4).text), attempts := 5
        extractions := 5, sleeps := [2, 2, 2, 2, 2] } :=
  c3_retry_budget_and_noRetriesLeft npcResponses echoScripts false
    (fun _ _ => ⟨rfl, rfl⟩)

/-- C4: whenever the loop meets a non-success status with
`raise_no_translation` set, `get_reader_store` raises
`NoTranslationAvailableError` at once: one request, zero extraction
attempts, zero sleeps, no retry — both at an arbitrary loop state and
for the whole call when the first response is non-200. -/
theorem c4_noTranslation_immediate_permanent :
    (∀ (responses : Nat → HttpResponse) (ps : String → List String)
        (r i : Nat) (hd : Option String),
      (responses i).status ≠ 200 →
      grsLoop responses ps true (r + 1) i hd =
        { result := .raised .noTranslationAvailable, attempts := 1
          extractions := 0, sleeps := [] })
    ∧ (∀ (responses : Nat → HttpResponse) (ps : String → List String),
      (responses 0).status ≠ 200 →
      getReaderStore responses ps true =
        { result := .raised .noTranslationAvailable, attempts := 1
          extractions := 0, sleeps := [] }) := by
  constructor
  · intro responses ps r i hd hs
    simp [grsLoop, hs]
  · intro responses ps hs
    rw [getReaderStore]
    rw [show (5 : Nat) = 4 + 1 from rfl]
    simp [grsLoop, hs]

/-- Witness for C4: a server that always answers 404. -/
theorem c4_noTranslation_immediate_permanent_witness :
    grsLoop notFoundResponses echoScripts true 3 7 none =
      { result := .raised .noTranslationAvailable, attempts := 1
        extractions := 0, sleeps := [] } ∧
    getReaderStore notFoundResponses echoScripts true =
      { result := .raised .noTranslationAvailable, attempts := 1
        extractions := 0, sleeps := [] } :=
  ⟨c4_noTranslation_immediate_permanent.1 notFoundResponses echoScripts 2 7 none
      (by decide),
    c4_noTranslation_immediate_permanent.2 notFoundResponses echoScripts (by decide)⟩

/-- Flattening distributes over list concatenation. -/
theorem getUrisFromEntries_append (a b : List Entry) :
    getUrisFromEntries (a ++ b) = getUrisFromEntries a ++ getUrisFromEntries b := by
  induction a with
  | nil => simp [getUrisFromEntries]
  | cons e rest ih => simp [getUrisFromEntries, ih]

/-- Joint induction (by size) for the TOC flattening property at the
list level and at the item level. -/
theorem entriesFlattenAux (fuel : Nat) :
    (∀ (excluded : List String) (raw : List RawEntry), sizeOf raw ≤ fuel →
      ∀ es, getEntries excluded raw = .ok es →
        getUrisFromEntries es =
          (rawContentUris raw).filter (fun u => !excluded.contains u))
    ∧ (∀ (excluded : List String) (item : RawEntry), sizeOf item ≤ fuel →
      ∀ es, getEntriesItem excluded item = .ok es →
        getUrisFromEntries es =
          (rawContentUrisItem item).filter (fun u => !excluded.contains u)) := by
  induction fuel with
  | zero =>
      constructor
      · intro excluded raw hsz
        cases raw <;> simp_all
      · intro excluded item hsz
        cases item <;> simp_all
  | succ f ih =>
      constructor
      · intro excluded raw hsz es h
        cases raw
        next =>
            simp only [getEntries] at h
            cases h
            simp [getUrisFromEntries, rawContentUris]
        next item rest =>
            have hitem : sizeOf item ≤ f := by
              cases item <;> simp_all <;> omega
            have hrest : sizeOf rest ≤ f := by
              simp_all; omega
            simp only [getEntries] at h
            cases hi : getEntriesItem excluded item with
            | error e => rw [hi] at h; cases h
            | ok head =>
                rw [hi] at h
                cases hr : getEntries excluded rest with
                | error e => rw [hr] at h; cases h
                | ok restE =>
                    rw [hr] at h
                    cases h
                    rw [getUrisFromEntries_append,
                      ih.2 excluded item hitem head hi,
                      ih.1 excluded rest hrest restE hr,
                      show rawContentUris (item :: rest) =
                        rawContentUrisItem item ++ rawContentUris rest from rfl,
                      List.filter_append]
      · intro excluded item hsz es h
        cases item
        next title subs =>
            have hsubs : sizeOf subs ≤ f := by simp_all; omega
            simp only [getEntriesItem] at h
            cases hs : getEntries excluded subs with
            | error e => rw [hs] at h; cases h
            | ok subE =>
                rw [hs] at h
                cases h
                rw [show getUrisFromEntries [Entry.section title subE] =
                    getUrisFromEntries subE from by
                  simp [getUrisFromEntries, getUrisFromEntry]]
                exact ih.1 excluded subs hsubs subE hs
        next title uri =>
            simp only [getEntriesItem] at h
            by_cases hc : excluded.contains uri
            · rw [if_pos hc] at h
              cases h
              simp at hc
              simp [getUrisFromEntries, rawContentUrisItem, hc]
            · rw [if_neg hc] at h
              cases h
              simp at hc
              simp [getUrisFromEntries, getUrisFromEntry, rawContentUrisItem, hc]
        next => simp [getEntriesItem] at h

/-- C5: whenever `get_entries` succeeds, flattening its tree yields
exactly the locators of the non-excluded content entries in pre-order
(exclusion acts on content identity, not ancestry); on the 3-level
fixture `Section(A) -> [Content(a1), Section(B) -> [Content(b1 excluded),
Content(b2)]]` the flattened order is `[a1, b2]`. -/
theorem c5_flatten_excludes_exactly_excluded_contents :
    (∀ (excluded : List String) (raw : List RawEntry) (es : List Entry),
      getEntries excluded raw = .ok es →
      getUrisFromEntries es =
        (rawContentUris raw).filter (fun u => !excluded.contains u))
    ∧ (getEntries ["b1"] fixtureTocRaw).map getUrisFromEntries = .ok ["a1", "b2"] := by
  refine ⟨?_, rfl⟩
  intro excluded raw es h
  exact (entriesFlattenAux (sizeOf raw)).1 excluded raw le_rfl es h

/-- Witness for C5 at the 3-level fixture. -/
theorem c5_flatten_excludes_exactly_excluded_contents_witness :
    ∃ es, getEntries ["b1"] fixtureTocRaw = .ok es ∧
      getUrisFromEntries es =
        (rawContentUris fixtureTocRaw).filter (fun u => !(["b1"].contains u)) := by
  refine ⟨[.section "A" [.content "a1 title" "a1",
    .section "B" [.content "b2 title" "b2"]]], rfl, ?_⟩
  exact c5_flatten_excludes_exactly_excluded_contents.1 ["b1"] fixtureTocRaw _ rfl

/-- Joint induction (by size) showing an unrecognized entry shape always
aborts `get_entries` with the `NotImplementedError`. -/
theorem entriesOtherAux (fuel : Nat) :
    (∀ (excluded : List String) (raw : List RawEntry), sizeOf raw ≤ fuel →
      containsOther raw = true → getEntries excluded raw = .error ())
    ∧ (∀ (excluded : List String) (item : RawEntry), sizeOf item ≤ fuel →
      containsOtherItem item = true → getEntriesItem excluded item = .error ()) := by
  induction fuel with
  | zero =>
      constructor
      · intro excluded raw hsz
        cases raw <;> simp_all
      · intro excluded item hsz
        cases item <;> simp_all
  | succ f ih =>
      constructor
      · intro excluded raw hsz hco
        cases raw
        next => simp [containsOther] at hco
        next item rest =>
            have hitem : sizeOf item ≤ f := by
              cases item <;> simp_all <;> omega
            have hrest : sizeOf rest ≤ f := by
              simp_all; omega
            simp only [containsOther, Bool.or_eq_true] at hco
            simp only [getEntries]
            rcases hco with hco | hco
            · rw [ih.2 excluded item hitem hco]
            · cases hi : getEntriesItem excluded item with
              | error e => rfl
              | ok head => rw [ih.1 excluded rest hrest hco]
      · intro excluded item hsz hco
        cases item
        next title subs =>
            have hsubs : sizeOf subs ≤ f := by simp_all; omega
            simp only [containsOtherItem] at hco
            simp only [getEntriesItem]
            rw [ih.1 excluded subs hsubs hco]
        next title uri => simp [containsOtherItem] at hco
        next => rfl

/-- C10: a TOC entry matching neither the section nor the content shape
makes `get_entries` raise `NotImplementedError`, which aborts the whole
resolution (no entry list is produced for any exclusion set) instead of
being skipped or absorbed. -/
theorem c10_unknown_shape_fatal :
    ∀ (raw : List RawEntry), containsOther raw = true →
      ∀ (excluded : List String),
        getEntries excluded raw = .error () ∧
        ∀ es, getEntries excluded raw ≠ .ok es := by
  intro raw hco excluded
  have herr := (entriesOtherAux (sizeOf raw)).1 excluded raw le_rfl hco
  exact ⟨herr, fun es hok => by rw [herr] at hok; cases hok⟩

/-- Witness for C10: a section whose nested entries contain an
unrecognized item. -/
theorem c10_unknown_shape_fatal_witness :
    getEntries ["x"] [.section "A" [.content "t" "u", .other]] = .error () ∧
    ∀ es, getEntries ["x"] [.section "A" [.content "t" "u", .other]] ≠ .ok es :=
  c10_unknown_shape_fatal [.section "A" [.content "t" "u", .other]] rfl ["x"]

/-- The per-pair retry loop never makes more attempts than its budget. -/
theorem pairLoop_attempts_le (oracle : Nat → PairOutcome) :
    ∀ (n k : Nat), (pairLoop oracle n k).attempts ≤ n := by
  intro n
  induction n with
  | zero => intro k; simp [pairLoop]
  | succ m ih =>
      intro k
      cases ho : oracle k <;> simp [pairLoop, ho]
      exact ih (k + 1)

/-- When attempts `k, k+1, ...` all raise non-translation errors, a
budget of `n` performs exactly `n` attempts, sleeps 10 units after each,
and exhausts. -/
theorem pairLoop_all_other (oracle : Nat → PairOutcome) :
    ∀ (n k : Nat), (∀ i, i < n → oracle (k + i) = .otherError) →
      pairLoop oracle n k =
        { result := .exhausted, attempts := n, sleeps := List.replicate n 10 } := by
  intro n
  induction n with
  | zero => intro k _; rfl
  | succ m ih =>
      intro k hk
      have h0 := hk 0 (by omega)
      rw [Nat.add_zero] at h0
      have hrest := ih (k + 1) (fun i hi => by
        have h := hk (i + 1) (by omega)
        rw [show k + (i + 1) = k + 1 + i by omega] at h
        exact h)
      simp [pairLoop, h0, hrest, List.replicate_succ]

/-- C6: per (corpus, language) pair the orchestrator makes at most 3
attempts; `NoTranslationAvailableError` stops the pair at once and the
run continues with the next pair; any other exception sleeps 10 units
and retries the pair from scratch; and three non-translation failures
exhaust the budget and raise `NoRetriesLeftError`, which aborts the
entire run. -/
theorem c6_pair_retry_semantics :
    (∀ (oracle : Nat → PairOutcome) (k : Nat), (pairLoop oracle 3 k).attempts ≤ 3)
    ∧ (∀ (oracle : Nat → PairOutcome) (r i : Nat), oracle i = .noTranslation →
        pairLoop oracle (r + 1) i =
          { result := .noTranslationSkip, attempts := 1, sleeps := [] })
    ∧ (∀ (oracle : Nat → PairOutcome) (r i : Nat), oracle i = .otherError →
        pairLoop oracle (r + 1) i =
          { result := (pairLoop oracle r (i + 1)).result
            attempts := (pairLoop oracle r (i + 1)).attempts + 1
            sleeps := 10 :: (pairLoop oracle r (i + 1)).sleeps })
    ∧ (∀ (oracle : Nat → PairOutcome), (∀ i, i < 3 → oracle i = .otherError) →
        pairLoop oracle 3 0 =
          { result := .exhausted, attempts := 3, sleeps := [10, 10, 10] })
    ∧ (∀ (oracle : String → Nat → PairOutcome) (ov : Bool) (sc lg : String)
        (rest : List (String × String)) (files : List (String × Json)),
        (files.any (fun f => f.1 = pairName sc lg) && !ov) = false →
        (pairLoop (oracle (pairName sc lg)) 3 0).result = .noTranslationSkip →
        mainLoop oracle ov ((sc, lg) :: rest) files =
          { ok := (mainLoop oracle ov rest files).ok
            events := .noTranslationSkip (pairName sc lg)
                (pairLoop (oracle (pairName sc lg)) 3 0).attempts
                (pairLoop (oracle (pairName sc lg)) 3 0).sleeps ::
              (mainLoop oracle ov rest files).events
            files := (mainLoop oracle ov rest files).files
            fetches := (pairLoop (oracle (pairName sc lg)) 3 0).attempts +
              (mainLoop oracle ov rest files).fetches })
    ∧ (∀ (oracle : String → Nat → PairOutcome) (ov : Bool) (sc lg : String)
        (rest : List (String × String)) (files : List (String × Json)),
        (files.any (fun f => f.1 = pairName sc lg) && !ov) = false →
        (∀ i, i < 3 → oracle (pairName sc lg) i = .otherError) →
        mainLoop oracle ov ((sc, lg) :: rest) files =
          { ok := false
            events := [.fatalExhausted (pairName sc lg) 3 [10, 10, 10]]
            files := files, fetches := 3 }) := by
  refine ⟨fun oracle k => pairLoop_attempts_le oracle 3 k, ?_, ?_, ?_, ?_, ?_⟩
  · intro oracle r i h
    simp [pairLoop, h]
  · intro oracle r i h
    simp [pairLoop, h]
  · intro oracle h
    have := pairLoop_all_other oracle 3 0 (fun i hi => by
      have hh := h i hi
      rw [Nat.zero_add]
      exact hh)
    rw [this]
    rfl
  · intro oracle ov sc lg rest files hguard hnt
    simp only [mainLoop, hguard, Bool.false_eq_true, if_false]
    rw [hnt]
  · intro oracle ov sc lg rest files hguard hother
    have hpl := pairLoop_all_other (oracle (pairName sc lg)) 3 0 (fun i hi => by
      have hh := hother i hi
      rw [Nat.zero_add]
      exact hh)
    simp only [mainLoop, hguard, Bool.false_eq_true, if_false, hpl]
    rfl

/-- Witness for C6: a pair whose every attempt fails aborts the run
after 3 attempts; a translation-less pair is skipped after 1 attempt and
the run goes on. -/
theorem c6_pair_retry_semantics_witness :
    pairLoop (allOtherOracle "x") 3 0 =
      { result := .exhausted, attempts := 3, sleeps := [10, 10, 10] } ∧
    mainLoop allOtherOracle false [("bofm", "eng")] [] =
      { ok := false
        events := [.fatalExhausted (pairName "bofm" "eng") 3 [10, 10, 10]]
        files := [], fetches := 3 } ∧
    mainLoop allNoTransOracle false [("bofm", "eng"), ("pgp", "eng")] [] =
      { ok := true
        events := [.noTranslationSkip (pairName "bofm" "eng") 1 [],
          .noTranslationSkip (pairName "pgp" "eng") 1 []]
        files := [], fetches := 2 } := by
  refine ⟨c6_pair_retry_semantics.2.2.2.1 (allOtherOracle "x") (fun _ _ => rfl), ?_, ?_⟩
  · exact c6_pair_retry_semantics.2.2.2.2.2 allOtherOracle false "bofm" "eng" [] []
      rfl (fun _ _ => rfl)
  · have h1 := c6_pair_retry_semantics.2.2.2.2.1 allNoTransOracle false "bofm" "eng"
      [("pgp", "eng")] [] rfl rfl
    have h2 := c6_pair_retry_semantics.2.2.2.2.1 allNoTransOracle false "pgp" "eng"
      [] [] rfl rfl
    rw [h1, h2]
    rfl

/-- An all-existing run processes every pair as a pre-fetch skip. -/
theorem mainLoop_all_existing (oracle : String → Nat → PairOutcome)
    (files : List (String × Json)) :
    ∀ (pairs : List (String × String)),
      (∀ p ∈ pairs, files.any (fun f => f.1 = pairName p.1 p.2) = true) →
      mainLoop oracle false pairs files =
        { ok := true
          events := pairs.map (fun p => .skippedExisting (pairName p.1 p.2))
          files := files, fetches := 0 } := by
  intro pairs
  induction pairs with
  | nil => intro _; rfl
  | cons p rest ih =>
      intro hall
      obtain ⟨sc, lg⟩ := p
      have hp := hall (sc, lg) (List.mem_cons_self _ _)
      have hrest := ih (fun q hq => hall q (List.mem_cons_of_mem _ hq))
      simp only [mainLoop, hp, Bool.not_false, Bool.and_true, if_true, hrest]
      rfl

/-- C7: with `overwrite` unset, a pair whose output file already exists
is skipped before any fetch, and a run over already-persisted pairs
performs zero `get_books` calls (hence zero network fetches) and leaves
the output files unchanged. -/
theorem c7_overwrite_false_idempotent :
    (∀ (oracle : String → Nat → PairOutcome) (sc lg : String)
        (rest : List (String × String)) (files : List (String × Json)),
      files.any (fun f => f.1 = pairName sc lg) = true →
      mainLoop oracle false ((sc, lg) :: rest) files =
        { ok := (mainLoop oracle false rest files).ok
          events := .skippedExisting (pairName sc lg) ::
            (mainLoop oracle false rest files).events
          files := (mainLoop oracle false rest files).files
          fetches := (mainLoop oracle false rest files).fetches })
    ∧ (∀ (oracle : String → Nat → PairOutcome) (languages scriptures : List String)
        (files : List (String × Json)),
      (∀ p ∈ pairsOf languages scriptures,
        files.any (fun f => f.1 = pairName p.1 p.2) = true) →
      mainRun oracle languages scriptures files false =
        { ok := true
          events := (pairsOf languages scriptures).map
            (fun p => .skippedExisting (pairName p.1 p.2))
          files := files, fetches := 0 }) := by
  constructor
  · intro oracle sc lg rest files hmem
    simp only [mainLoop, hmem, Bool.not_false, Bool.and_true, if_true]
  · intro oracle languages scriptures files hall
    exact mainLoop_all_existing oracle files (pairsOf languages scriptures) hall

/-- Witness for C7: a second run over the already-persisted `bofm`-`eng`
pair does nothing — even though the oracle would fail every fetch, the
run succeeds with zero fetches and the files unchanged. -/
theorem c7_overwrite_false_idempotent_witness :
    mainRun allOtherOracle ["eng"] ["bofm"] fixtureFiles false =
      { ok := true
        events := (pairsOf ["eng"] ["bofm"]).map
          (fun p => .skippedExisting (pairName p.1 p.2))
        files := fixtureFiles, fetches := 0 } :=
  c7_overwrite_false_idempotent.2 allOtherOracle ["eng"] ["bofm"] fixtureFiles
    (by decide)

end LdsDownload
